import Mathlib

/-!
# Verification of the credential-resolution chain of `sp_api.base.credential_provider`

Shallow embedding of the active code of `src/sp_api/base/credential_provider.py`
(the `CredentialProvider` class, its nested `Config` class and the
`MissingCredentials` exception), together with theorems settling the claims
about it.

Modelling conventions:
* A Python value that is either a string or `None` is `Value := Option String`;
  Python truthiness of such a value is `isFalsy` (falsy iff `None` or `""`).
* `os.environ` is an association list `Env`; `os.environ.get` is `envGet`.
* The process-wide `cachetools.Cache(maxsize=10)` is an association list from
  string keys to the decoded payload.  The only value ever stored under a key is
  `json.dumps(account_data)` of a six-field dict whose values are strings or
  `None`; since `json.loads (json.dumps d) = d` for such dicts, the cache stores
  the decoded dict (a `Config`-shaped record) directly.  The `maxsize` bound is
  not modelled: the code only ever uses the single key `"account_data"`, so the
  capacity of 10 is never reached.
* The remote secret store (`boto3` secretsmanager plus `json.loads` of the
  returned `SecretString`) is a collaborator `fetch : String → FetchOutcome`:
  either a `ClientError` (caught by the code) or a successfully decoded JSON
  object, from which only the six keys read by `from_secrets` matter.
* The `confuse` configuration file is `ConfigFile`: either unreadable
  (`ConfigReadError` from `set_file`) or a readable list of account sections,
  a missing section raising `NotFoundError`.
* Python keyword-argument binding of `Config(**mapping)` is `mkConfig`: it
  fails (a `TypeError`, not `MissingCredentials`) when one of the five
  parameters without a default is absent from the mapping.
-/

namespace SpApi

/-- A Python value that is a string or `None`. -/
abbrev Value := Option String

/-- Python truthiness test `not v` for a string-or-`None` value:
falsy iff `None` or the empty string. -/
def isFalsy : Value → Bool
  | none => true
  | some s => s == ""

/-- The nested `CredentialProvider.Config` record: the six attributes set by
`Config.__init__` (in `self.__dict__` insertion order).  `use_instance_profile`
is accepted by the constructor but never stored. -/
structure Config where
  refresh_token : Value
  lwa_app_id : Value
  lwa_client_secret : Value
  aws_access_key : Value
  aws_secret_key : Value
  role_arn : Value
deriving DecidableEq, Repr

/-- `self.__dict__.items()` of a `Config`, in attribute-assignment order. -/
def fieldsOf (c : Config) : List (String × Value) :=
  [("refresh_token", c.refresh_token),
   ("lwa_app_id", c.lwa_app_id),
   ("lwa_client_secret", c.lwa_client_secret),
   ("aws_access_key", c.aws_access_key),
   ("aws_secret_key", c.aws_secret_key),
   ("role_arn", c.role_arn)]

/-- `Config.check_config`: collect the names of the attributes whose value is
falsy, skipping `refresh_token` and `role_arn`. -/
def checkConfig (c : Config) : List String :=
  ((fieldsOf c).filter
    (fun kv => isFalsy kv.2 && !(kv.1 == "refresh_token" || kv.1 == "role_arn"))).map
    (fun kv => kv.1)

/-- The four required field names (spec side, for stating claims). -/
def requiredFields : List String :=
  ["lwa_app_id", "lwa_client_secret", "aws_access_key", "aws_secret_key"]

/-- The value of the `Config` attribute named `k` (spec side). -/
def cfgGet (c : Config) (k : String) : Value :=
  (((fieldsOf c).find? (fun kv => kv.1 == k)).map (fun kv => kv.2)).getD none

/-- A Python `dict` passed as `**kwargs` to `Config`; an outer `none` means the
key is absent from the mapping.  Only the seven parameter names of
`Config.__init__` are modelled (any other key would raise a `TypeError`
before anything else happens). -/
structure PyDict where
  refresh_token : Option Value := none
  lwa_app_id : Option Value := none
  lwa_client_secret : Option Value := none
  aws_access_key : Option Value := none
  aws_secret_key : Option Value := none
  role_arn : Option Value := none
  use_instance_profile : Option Value := none
deriving DecidableEq, Repr

/-- Python truthiness of the dict: truthy iff nonempty. -/
def pyDictTruthy (d : PyDict) : Bool :=
  d.refresh_token.isSome || d.lwa_app_id.isSome || d.lwa_client_secret.isSome ||
  d.aws_access_key.isSome || d.aws_secret_key.isSome || d.role_arn.isSome ||
  d.use_instance_profile.isSome

/-- Keyword binding `Config(**d)`.  The five parameters without a default must
be present, else Python raises `TypeError` (modelled as `none`); `role_arn`
and `use_instance_profile` default to `None`. -/
def mkConfig (d : PyDict) : Option Config :=
  match d.refresh_token, d.lwa_app_id, d.lwa_client_secret,
        d.aws_access_key, d.aws_secret_key with
  | some rt, some ai, some cs, some ak, some sk =>
      some { refresh_token := rt, lwa_app_id := ai, lwa_client_secret := cs,
             aws_access_key := ak, aws_secret_key := sk,
             role_arn := d.role_arn.getD none }
  | _, _, _, _, _ => none

/-- `os.environ`: an association list of set variables (values are strings). -/
abbrev Env := List (String × String)

/-- `os.environ.get key` (absent gives `None`). -/
def envGet (env : Env) (key : String) : Value :=
  (env.find? (fun kv => kv.1 == key)).map (fun kv => kv.2)

/-- `CredentialProvider._get_env`: the account-scoped variable
`{key}_{account}` if set, else the unscoped `key`. -/
def getEnvScoped (env : Env) (key account : String) : Value :=
  match envGet env (key ++ "_" ++ account) with
  | some v => some v
  | none => envGet env key

/-- The process-wide `cache` (decoded payloads keyed by string). -/
abbrev Cache := List (String × Config)

/-- `cache[k]` as an optional lookup (`KeyError` is the `none` case). -/
def cacheGet (cache : Cache) (k : String) : Option Config :=
  ((cache.find? (fun kv => kv.1 == k)).map (fun kv => kv.2))

/-- `cache[k] = v`. -/
def cachePut (cache : Cache) (k : String) (v : Config) : Cache :=
  (k, v) :: cache.filter (fun kv => kv.1 != k)

/-- The JSON object decoded from the remote secret: only the six keys read by
`from_secrets` are relevant; `secret.get` of an absent key gives `None`. -/
structure RemoteSecret where
  sp_api_refresh_token : Value := none
  lwa_app_id : Value := none
  lwa_client_secret : Value := none
  sp_api_secret_key : Value := none
  sp_api_access_key : Value := none
  sp_api_role_arn : Value := none
deriving DecidableEq, Repr

/-- One remote-store access: `get_secret_value` followed by `json.loads` of the
`SecretString`, or a `botocore` `ClientError` (not found, access denied, …). -/
inductive FetchOutcome where
  | clientError : FetchOutcome
  | ok : RemoteSecret → FetchOutcome
deriving DecidableEq

/-- The `account_data` dict built in `from_secrets` from the decoded secret,
then bound by `Config(**account_data)` (all six keyword names are present). -/
def secretConfig (s : RemoteSecret) : Config :=
  { refresh_token := s.sp_api_refresh_token,
    lwa_app_id := s.lwa_app_id,
    lwa_client_secret := s.lwa_client_secret,
    aws_secret_key := s.sp_api_secret_key,
    aws_access_key := s.sp_api_access_key,
    role_arn := s.sp_api_role_arn }

/-- The single quote character, used by Python's `repr` of a string list. -/
def sq : String := String.singleton (Char.ofNat 39)

/-- Python `repr` of a string. -/
def pyStrRepr (s : String) : String := sq ++ s ++ sq

/-- Comma-separated interior of Python's `repr` of a list of strings. -/
def pyListReprAux : List String → String
  | [] => ""
  | [x] => pyStrRepr x
  | x :: y :: xs => pyStrRepr x ++ ", " ++ pyListReprAux (y :: xs)

/-- Python `repr` of a list of strings, as interpolated by an f-string. -/
def pyListRepr (l : List String) : String := "[" ++ pyListReprAux l ++ "]"

/-- The message of the `MissingCredentials` raised when validation fails
(`__init__` on explicit credentials, and `read_config`). -/
def missingMsg (missing : List String) : String :=
  "The following configuration parameters are missing: " ++ pyListRepr missing

/-- The message of the `MissingCredentials` raised by `read_config` when the
account section is absent (`confuse` `NotFoundError`). -/
def accountMsg (account : String) : String :=
  "The account " ++ account ++ " was not setup in your configuration file."

/-- The message of the `MissingCredentials` raised by `read_config` when no
config file can be read (`confuse` `ConfigReadError`). -/
def noFileMsg : String :=
  "Neither environment variables nor a config file were found. " ++
  "Please set the correct variables, or use a config file (credentials.yml). " ++
  "See https://confuse.readthedocs.io/en/latest/usage.html#search-paths for search paths."

/-- An exception escaping construction: `MissingCredentials` with its message,
or a `TypeError` from keyword binding in `Config(**mapping)`. -/
inductive PyExc where
  | missingCredentials : String → PyExc
  | typeError : PyExc
deriving DecidableEq

/-- The local `confuse` configuration: unreadable (`set_file` raises
`ConfigReadError`), or a readable document mapping account names to sections. -/
inductive ConfigFile where
  | unreadable : ConfigFile
  | readable : List (String × PyDict) → ConfigFile
deriving DecidableEq

/-- `config[account].get()`: the section keyed by the account, if any. -/
def lookupSection (sections : List (String × PyDict)) (account : String) :
    Option PyDict :=
  ((sections.find? (fun kv => kv.1 == account)).map (fun kv => kv.2))

/-- `CredentialProvider.read_config`: read the config file, look up the
account's section, bind it with `Config(**account_data)` and validate;
`ConfigReadError`, `NotFoundError` and a nonempty missing list each become a
`MissingCredentials` with its own message. -/
def readConfig (file : ConfigFile) (account : String) : Except PyExc Config :=
  match file with
  | .unreadable => .error (.missingCredentials noFileMsg)
  | .readable sections =>
    match lookupSection sections account with
    | none => .error (.missingCredentials (accountMsg account))
    | some d =>
      match mkConfig d with
      | none => .error .typeError
      | some c =>
        if (checkConfig c).length != 0 then
          .error (.missingCredentials (missingMsg (checkConfig c)))
        else
          .ok c

/-- Result of `CredentialProvider.from_env`: the `Config` assigned to
`self.credentials` and the returned boolean (`check_config` empty). -/
structure EnvResult where
  credentials : Config
  ret : Bool
deriving DecidableEq

/-- `CredentialProvider.from_env`: use the cached payload under
`"account_data"` if present, otherwise read the (account-scoped) environment
variables; always assign `self.credentials` and report whether validation
passed. -/
def fromEnv (cache : Cache) (env : Env) (account : String) : EnvResult :=
  let ad : Config :=
    match cacheGet cache "account_data" with
    | some ad => ad
    | none =>
      { refresh_token := getEnvScoped env "SP_API_REFRESH_TOKEN" account,
        lwa_app_id := getEnvScoped env "LWA_APP_ID" account,
        lwa_client_secret := getEnvScoped env "LWA_CLIENT_SECRET" account,
        aws_secret_key := getEnvScoped env "SP_API_SECRET_KEY" account,
        aws_access_key := getEnvScoped env "SP_API_ACCESS_KEY" account,
        role_arn := getEnvScoped env "SP_API_ROLE_ARN" account }
  { credentials := ad, ret := (checkConfig ad).length == 0 }

/-- Result of `CredentialProvider.from_secrets`: the cache after the call, the
`Config` assigned to `self.credentials` (if any), the Python return value
(`None` is a skip) and how many times the remote fetch was invoked. -/
structure SecretsResult where
  cache : Cache
  credentials : Option Config
  ret : Option Bool
  fetchCalls : Nat
deriving DecidableEq

/-- `CredentialProvider.from_secrets`: skip unless `SP_API_AWS_SECRET_ID` is
set and truthy; fetch and decode the secret, cache the payload under
`"account_data"`, assign `self.credentials` and report validation — but on a
`ClientError` return `None` (skip) leaving cache and credentials untouched. -/
def fromSecrets (env : Env) (fetch : String → FetchOutcome) (cache : Cache) :
    SecretsResult :=
  match envGet env "SP_API_AWS_SECRET_ID" with
  | none => { cache := cache, credentials := none, ret := none, fetchCalls := 0 }
  | some sid =>
    if sid == "" then
      { cache := cache, credentials := none, ret := none, fetchCalls := 0 }
    else
      match fetch sid with
      | .clientError =>
        { cache := cache, credentials := none, ret := none, fetchCalls := 1 }
      | .ok secret =>
        let ad := secretConfig secret
        { cache := cachePut cache "account_data" ad,
          credentials := some ad,
          ret := some ((checkConfig ad).length == 0),
          fetchCalls := 1 }

/-- One of the three source-attempt methods in the `self.read_credentials`
list, in the order `__init__` builds it. -/
inductive Source where
  | env : Source
  | secrets : Source
  | config : Source
deriving DecidableEq, Repr

/-- Result of one construction: the escaping exception or the resolved
`self.credentials`, the cache afterwards, the sources actually invoked in
order, and the number of remote-fetch invocations. -/
structure LoadResult where
  outcome : Except PyExc Config
  cache : Cache
  trace : List Source
  fetchCalls : Nat

/-- `CredentialProvider.load_credentials`: call the read methods in list order
and stop at the first truthy return value (`from_env` returns a bool,
`from_secrets` returns `None` or a bool, `read_config` returns `True` or
raises).  When `from_secrets` returns `some true` its `credentials` field is
`some _`; the `getD` default is never reached. -/
def loadCredentials (cache : Cache) (env : Env) (fetch : String → FetchOutcome)
    (file : ConfigFile) (account : String) : LoadResult :=
  let e := fromEnv cache env account
  if e.ret then
    { outcome := .ok e.credentials, cache := cache, trace := [.env], fetchCalls := 0 }
  else
    let s := fromSecrets env fetch cache
    if s.ret == some true then
      { outcome := .ok (s.credentials.getD e.credentials), cache := s.cache,
        trace := [.env, .secrets], fetchCalls := s.fetchCalls }
    else
      match readConfig file account with
      | .ok c =>
        { outcome := .ok c, cache := s.cache,
          trace := [.env, .secrets, .config], fetchCalls := s.fetchCalls }
      | .error ex =>
        { outcome := .error ex, cache := s.cache,
          trace := [.env, .secrets, .config], fetchCalls := s.fetchCalls }

/-- `CredentialProvider.__init__`: with a truthy explicit-credentials mapping,
bind `Config(**credentials)` and validate, raising `MissingCredentials` when
fields are missing — never consulting a source; otherwise run the source
chain. -/
def init (account : String) (credentials : Option PyDict) (env : Env)
    (fetch : String → FetchOutcome) (file : ConfigFile) (cache : Cache) :
    LoadResult :=
  match credentials with
  | some d =>
    if pyDictTruthy d then
      match mkConfig d with
      | none => { outcome := .error .typeError, cache := cache, trace := [], fetchCalls := 0 }
      | some c =>
        if (checkConfig c).length != 0 then
          { outcome := .error (.missingCredentials (missingMsg (checkConfig c))),
            cache := cache, trace := [], fetchCalls := 0 }
        else
          { outcome := .ok c, cache := cache, trace := [], fetchCalls := 0 }
    else loadCredentials cache env fetch file account
  | none => loadCredentials cache env fetch file account

/-! ## Concrete fixtures (used by witnesses and the counterexample) -/

/-- An environment with all four required unscoped variables set. -/
def envFullW : Env :=
  [("LWA_APP_ID", "app"), ("LWA_CLIENT_SECRET", "cs"),
   ("SP_API_ACCESS_KEY", "ak"), ("SP_API_SECRET_KEY", "sk")]

/-- An environment whose only variable is the secret identifier. -/
def envSidW : Env := [("SP_API_AWS_SECRET_ID", "sid")]

/-- An environment with both a scoped and an unscoped `LWA_APP_ID`. -/
def envScopedW : Env :=
  [("LWA_APP_ID", "base"), ("LWA_APP_ID_myaccount", "scoped")]

/-- A remote store where every access raises `ClientError`. -/
def fetchErrW : String → FetchOutcome := fun _ => FetchOutcome.clientError

/-- A complete remote secret payload. -/
def secretFullW : RemoteSecret :=
  { sp_api_refresh_token := some "rt", lwa_app_id := some "app",
    lwa_client_secret := some "cs", sp_api_secret_key := some "sk",
    sp_api_access_key := some "ak", sp_api_role_arn := some "ra" }

/-- A remote store returning the complete payload for every identifier. -/
def fetchOkW : String → FetchOutcome := fun _ => FetchOutcome.ok secretFullW

/-- An incomplete remote secret payload (only the app id). -/
def secretPartialW : RemoteSecret := { lwa_app_id := some "app" }

/-- A remote store returning the incomplete payload. -/
def fetchPartialW : String → FetchOutcome :=
  fun _ => FetchOutcome.ok secretPartialW

/-- An explicit-credentials mapping with every constructor parameter it needs
and all required values nonempty. -/
def dFullW : PyDict :=
  { refresh_token := some (some "rt"), lwa_app_id := some (some "app"),
    lwa_client_secret := some (some "cs"), aws_access_key := some (some "ak"),
    aws_secret_key := some (some "sk") }

/-- The record `Config(**dFullW)` builds. -/
def cFullW : Config :=
  { refresh_token := some "rt", lwa_app_id := some "app",
    lwa_client_secret := some "cs", aws_access_key := some "ak",
    aws_secret_key := some "sk", role_arn := none }

/-- An explicit-credentials mapping lacking the `aws_secret_key` key. -/
def dNoSecretKeyW : PyDict :=
  { refresh_token := some (some "rt"), lwa_app_id := some (some "app"),
    lwa_client_secret := some (some "cs"), aws_access_key := some (some "ak") }

/-- An explicit-credentials mapping whose `aws_secret_key` is the empty
string. -/
def dEmptySecretKeyW : PyDict :=
  { refresh_token := some (some "rt"), lwa_app_id := some (some "app"),
    lwa_client_secret := some (some "cs"), aws_access_key := some (some "ak"),
    aws_secret_key := some (some "") }

/-! ## Helper lemmas -/

theorem find?_filter_ne (l : List (String × Config)) (k j : String) (h : j ≠ k) :
    List.find? (fun kv => kv.1 == j) (l.filter (fun kv => kv.1 != k)) =
    List.find? (fun kv => kv.1 == j) l := by
  have hkj : (k == j) = false := by
    simp only [beq_eq_false_iff_ne]
    exact fun e => h e.symm
  induction l with
  | nil => rfl
  | cons hd tl ih =>
    by_cases hhd : hd.1 = k
    · have hj : ¬ hd.1 = j := by rw [hhd]; exact fun e => h e.symm
      simp [List.filter_cons, List.find?_cons, hhd, hj, hkj, ih]
    · by_cases hj : hd.1 = j
      · simp [List.filter_cons, List.find?_cons, hhd, hj, h, ih]
      · simp [List.filter_cons, List.find?_cons, hhd, hj, h, ih]

theorem cacheGet_cachePut (cache : Cache) (k : String) (v : Config) :
    cacheGet (cachePut cache k v) k = some v := by
  simp [cacheGet, cachePut]

theorem cacheGet_cachePut_ne (cache : Cache) (k j : String) (v : Config)
    (h : j ≠ k) : cacheGet (cachePut cache k v) j = cacheGet cache j := by
  unfold cacheGet cachePut
  rw [List.find?]
  have : ((k, v).1 == j) = false := by
    simp only [beq_eq_false_iff_ne]
    exact fun e => h e.symm
  rw [this, find?_filter_ne _ _ _ h]

theorem mem_pyListReprAux (k : String) (l : List String) (h : k ∈ l) :
    ∃ pre post, pyListReprAux l = pre ++ k ++ post := by
  induction l with
  | nil => cases h
  | cons x xs ih =>
    rcases List.mem_cons.mp h with hx | hxs
    · subst hx
      cases xs with
      | nil => exact ⟨sq, sq, rfl⟩
      | cons y ys =>
        refine ⟨sq, sq ++ ", " ++ pyListReprAux (y :: ys), ?_⟩
        rw [show pyListReprAux (k :: y :: ys) =
          pyStrRepr k ++ ", " ++ pyListReprAux (y :: ys) from rfl]
        simp [pyStrRepr, String.append_assoc]
    · obtain ⟨pre, post, hih⟩ := ih hxs
      cases xs with
      | nil => cases hxs
      | cons y ys =>
        refine ⟨pyStrRepr x ++ ", " ++ pre, post, ?_⟩
        rw [show pyListReprAux (x :: y :: ys) =
          pyStrRepr x ++ ", " ++ pyListReprAux (y :: ys) from rfl, hih]
        simp [String.append_assoc]

theorem mem_missingMsg (k : String) (l : List String) (h : k ∈ l) :
    ∃ pre post, missingMsg l = pre ++ k ++ post := by
  obtain ⟨pre, post, hih⟩ := mem_pyListReprAux k l h
  refine ⟨"The following configuration parameters are missing: " ++ ("[" ++ pre),
    post ++ "]", ?_⟩
  rw [missingMsg, pyListRepr, hih]
  simp [String.append_assoc]

theorem mem_checkConfig_aws_secret_key (c : Config)
    (hv : isFalsy c.aws_secret_key = true) :
    "aws_secret_key" ∈ checkConfig c := by
  unfold checkConfig
  refine List.mem_map.mpr ⟨("aws_secret_key", c.aws_secret_key), ?_, rfl⟩
  refine List.mem_filter.mpr ⟨by simp [fieldsOf], ?_⟩
  simp [hv]

/-! ## Claims -/

/-- **C4.** For every field mapping, `check_config` returns exactly the names
among {lwa_app_id, lwa_client_secret, aws_access_key, aws_secret_key} whose
values are empty or absent — never more, never fewer — and never includes the
optional `refresh_token` or `role_arn`. -/
theorem checkConfig_exactly_missing_required (c : Config) :
    checkConfig c = requiredFields.filter (fun k => isFalsy (cfgGet c k)) ∧
    (checkConfig c).contains "refresh_token" = false ∧
    (checkConfig c).contains "role_arn" = false := by
  cases h1 : isFalsy c.refresh_token <;>
  cases h2 : isFalsy c.lwa_app_id <;>
  cases h3 : isFalsy c.lwa_client_secret <;>
  cases h4 : isFalsy c.aws_access_key <;>
  cases h5 : isFalsy c.aws_secret_key <;>
  cases h6 : isFalsy c.role_arn <;>
  simp [checkConfig, fieldsOf, requiredFields, cfgGet, List.filter, List.find?,
    h1, h2, h3, h4, h5, h6]

/-- **C1.** For every construction without explicit credentials, the source
attempts run strictly in the order environment-variable source, remote-secret
source, local-config-file source; the first attempt returning a record with
zero missing required fields (a truthy return) becomes the resolver's
credentials and later sources are never invoked: when `from_env` succeeds the
trace is just `[env]` with its record as the outcome and no remote fetch; when
it fails and `from_secrets` returns `True` the trace is `[env, secrets]` with
the secrets record as the outcome; only otherwise is `read_config` reached. -/
theorem init_tries_sources_in_order (cache : Cache) (env : Env)
    (fetch : String → FetchOutcome) (file : ConfigFile) (account : String) :
    ((fromEnv cache env account).ret = true →
      (init account none env fetch file cache).trace = [Source.env] ∧
      (init account none env fetch file cache).outcome =
        Except.ok (fromEnv cache env account).credentials ∧
      (init account none env fetch file cache).fetchCalls = 0) ∧
    ((fromEnv cache env account).ret = false →
      (fromSecrets env fetch cache).ret = some true →
      (init account none env fetch file cache).trace = [Source.env, Source.secrets] ∧
      (∀ c, (fromSecrets env fetch cache).credentials = some c →
        (init account none env fetch file cache).outcome = Except.ok c) ∧
      (init account none env fetch file cache).fetchCalls =
        (fromSecrets env fetch cache).fetchCalls) ∧
    ((fromEnv cache env account).ret = false →
      (fromSecrets env fetch cache).ret ≠ some true →
      (init account none env fetch file cache).trace =
        [Source.env, Source.secrets, Source.config] ∧
      (init account none env fetch file cache).outcome = readConfig file account ∧
      (init account none env fetch file cache).fetchCalls =
        (fromSecrets env fetch cache).fetchCalls) := by
  refine ⟨?_, ?_, ?_⟩
  · intro he
    simp [init, loadCredentials, he]
  · intro he hs
    refine ⟨?_, ?_, ?_⟩ <;> simp [init, loadCredentials, he, hs]
    intro c hc
    simp [hc]
  · intro he hs
    have hs' : ((fromSecrets env fetch cache).ret == some true) = false := by
      simpa using hs
    refine ⟨?_, ?_, ?_⟩ <;>
      cases hr : readConfig file account <;>
      simp [init, loadCredentials, he, hs', hr]

/-- Witness for C1: with all four required environment variables set, the
environment-variable source succeeds and is the only source invoked. -/
theorem init_tries_sources_in_order_witness :
    (fromEnv [] envFullW "default").ret = true ∧
    (init "default" none envFullW fetchErrW ConfigFile.unreadable []).trace =
      [Source.env] ∧
    (init "default" none envFullW fetchErrW ConfigFile.unreadable []).outcome =
      Except.ok (fromEnv [] envFullW "default").credentials ∧
    (init "default" none envFullW fetchErrW ConfigFile.unreadable []).fetchCalls = 0 :=
  ⟨by decide,
   (init_tries_sources_in_order [] envFullW fetchErrW ConfigFile.unreadable
     "default").1 (by decide)⟩

/-- **C2, counterexample.** The claim fails for a mapping in which
`aws_secret_key` is *missing* (the key absent): keyword binding of
`Config(**credentials)` then raises a `TypeError` (`aws_secret_key` has no
default), not `MissingCredentials`, so no `MissingCredentials` message
containing "aws_secret_key" is produced. -/
theorem explicit_missing_aws_secret_key_counterexample :
    (init "default" (some dNoSecretKeyW) [] fetchErrW
      ConfigFile.unreadable []).outcome = Except.error PyExc.typeError ∧
    ¬ ∃ msg pre post,
      (init "default" (some dNoSecretKeyW) [] fetchErrW
        ConfigFile.unreadable []).outcome =
        Except.error (PyExc.missingCredentials msg) ∧
      msg = pre ++ "aws_secret_key" ++ post := by
  have h0 : (init "default" (some dNoSecretKeyW) [] fetchErrW
      ConfigFile.unreadable []).outcome = Except.error PyExc.typeError := rfl
  refine ⟨h0, ?_⟩
  rintro ⟨msg, pre, post, h, -⟩
  rw [h0] at h
  exact PyExc.noConfusion (Except.error.inj h)

/-- **C2, amended.** For every explicit-credentials mapping in which
`aws_secret_key` is *present but empty or None* — and the other constructor
parameters without a default (`refresh_token`, `lwa_app_id`,
`lwa_client_secret`, `aws_access_key`) are present, so that keyword binding
succeeds — construction raises `MissingCredentials` whose message contains
"aws_secret_key".  (A mapping lacking the key entirely instead fails with a
`TypeError` from keyword binding, per the counterexample.) -/
theorem explicit_empty_aws_secret_key_raises (d : PyDict) (env : Env)
    (fetch : String → FetchOutcome) (file : ConfigFile) (cache : Cache)
    (account : String) (rt ai cs ak v : Value)
    (h1 : d.refresh_token = some rt) (h2 : d.lwa_app_id = some ai)
    (h3 : d.lwa_client_secret = some cs) (h4 : d.aws_access_key = some ak)
    (h5 : d.aws_secret_key = some v) (hv : isFalsy v = true) :
    ∃ pre post, (init account (some d) env fetch file cache).outcome =
      Except.error (PyExc.missingCredentials (pre ++ "aws_secret_key" ++ post)) := by
  have ht : pyDictTruthy d = true := by simp [pyDictTruthy, h1]
  have hmk : mkConfig d = some
      { refresh_token := rt, lwa_app_id := ai, lwa_client_secret := cs,
        aws_access_key := ak, aws_secret_key := v,
        role_arn := d.role_arn.getD none } := by
    simp [mkConfig, h1, h2, h3, h4, h5]
  set c : Config :=
    { refresh_token := rt, lwa_app_id := ai, lwa_client_secret := cs,
      aws_access_key := ak, aws_secret_key := v,
      role_arn := d.role_arn.getD none } with hc
  have hmem : "aws_secret_key" ∈ checkConfig c :=
    mem_checkConfig_aws_secret_key c (by simp [hc, hv])
  have hne : ((checkConfig c).length != 0) = true := by
    have : checkConfig c ≠ [] := List.ne_nil_of_mem hmem
    simpa [bne_iff_ne, List.length_eq_zero] using this
  obtain ⟨pre, post, hmsg⟩ := mem_missingMsg "aws_secret_key" (checkConfig c) hmem
  refine ⟨pre, post, ?_⟩
  simp [init, ht, hmk, hne, hmsg]

/-- Witness for the amended C2: a mapping whose `aws_secret_key` is the empty
string yields a `MissingCredentials` naming `aws_secret_key`. -/
theorem explicit_empty_aws_secret_key_raises_witness :
    dEmptySecretKeyW.aws_secret_key = some (some "") ∧
    isFalsy (some "") = true ∧
    ∃ pre post,
      (init "default" (some dEmptySecretKeyW) [] fetchErrW
        ConfigFile.unreadable []).outcome =
        Except.error (PyExc.missingCredentials (pre ++ "aws_secret_key" ++ post)) :=
  ⟨rfl, rfl,
   explicit_empty_aws_secret_key_raises dEmptySecretKeyW [] fetchErrW
     ConfigFile.unreadable [] "default" (some "rt") (some "app") (some "cs")
     (some "ak") (some "") rfl rfl rfl rfl rfl rfl⟩

/-- **C3.** A cached remote-secret payload under the fixed key makes the
environment-variable source use it while reading no environment variables (the
result does not depend on the environment at all); consequently when a first
resolver succeeds through a remote fetch of a complete payload, a second
resolver constructed over the resulting cache performs zero fetches (call
count stays at the first construction's 1) and resolves from the cache via the
environment-variable source alone. -/
theorem cached_payload_skips_refetch :
    (∀ (cache : Cache) (env : Env) (account : String) (ad : Config),
      cacheGet cache "account_data" = some ad →
      fromEnv cache env account =
        { credentials := ad, ret := (checkConfig ad).length == 0 }) ∧
    (∀ (cache : Cache) (env : Env) (fetch : String → FetchOutcome)
      (file : ConfigFile) (a1 a2 sid : String) (secret : RemoteSecret),
      (fromEnv cache env a1).ret = false →
      envGet env "SP_API_AWS_SECRET_ID" = some sid → (sid == "") = false →
      fetch sid = FetchOutcome.ok secret →
      checkConfig (secretConfig secret) = [] →
      (init a1 none env fetch file cache).fetchCalls = 1 ∧
      (init a1 none env fetch file cache).outcome =
        Except.ok (secretConfig secret) ∧
      (init a2 none env fetch file
        (init a1 none env fetch file cache).cache).fetchCalls = 0 ∧
      (init a2 none env fetch file
        (init a1 none env fetch file cache).cache).trace = [Source.env] ∧
      (init a2 none env fetch file
        (init a1 none env fetch file cache).cache).outcome =
        Except.ok (secretConfig secret)) := by
  constructor
  · intro cache env account ad h
    simp [fromEnv, h]
  · intro cache env fetch file a1 a2 sid secret he hsid hne hfetch hchk
    have hs : fromSecrets env fetch cache =
        { cache := cachePut cache "account_data" (secretConfig secret),
          credentials := some (secretConfig secret), ret := some true,
          fetchCalls := 1 } := by
      simp [fromSecrets, hsid, hne, hfetch, hchk]
    have hr1 : init a1 none env fetch file cache =
        { outcome := Except.ok (secretConfig secret),
          cache := cachePut cache "account_data" (secretConfig secret),
          trace := [Source.env, Source.secrets], fetchCalls := 1 } := by
      simp [init, loadCredentials, he, hs]
    have hr2e : fromEnv (cachePut cache "account_data" (secretConfig secret)) env a2 =
        { credentials := secretConfig secret, ret := true } := by
      simp [fromEnv, cacheGet_cachePut, hchk]
    rw [hr1]
    have hr2 : init a2 none env fetch file
        (cachePut cache "account_data" (secretConfig secret)) =
        { outcome := Except.ok (secretConfig secret),
          cache := cachePut cache "account_data" (secretConfig secret),
          trace := [Source.env], fetchCalls := 0 } := by
      simp [init, loadCredentials, hr2e]
    simp [hr2]

/-- Witness for C3: first resolver fetches the complete payload once, the
second resolver over the resulting cache fetches zero times. -/
theorem cached_payload_skips_refetch_witness :
    (fromEnv [] envSidW "a").ret = false ∧
    checkConfig (secretConfig secretFullW) = [] ∧
    (init "a" none envSidW fetchOkW ConfigFile.unreadable []).fetchCalls = 1 ∧
    (init "a" none envSidW fetchOkW ConfigFile.unreadable []).outcome =
      Except.ok (secretConfig secretFullW) ∧
    (init "b" none envSidW fetchOkW ConfigFile.unreadable
      (init "a" none envSidW fetchOkW ConfigFile.unreadable []).cache).fetchCalls = 0 ∧
    (init "b" none envSidW fetchOkW ConfigFile.unreadable
      (init "a" none envSidW fetchOkW ConfigFile.unreadable []).cache).trace =
      [Source.env] ∧
    (init "b" none envSidW fetchOkW ConfigFile.unreadable
      (init "a" none envSidW fetchOkW ConfigFile.unreadable []).cache).outcome =
      Except.ok (secretConfig secretFullW) :=
  ⟨by decide, by decide,
   cached_payload_skips_refetch.2 [] envSidW fetchOkW ConfigFile.unreadable
     "a" "b" "sid" secretFullW (by decide) (by decide) (by decide) rfl (by decide)⟩

/-- **C5.** `read_config` raises `MissingCredentials` in exactly three
distinguishable ways: the account-naming message when the section is absent
from a readable file (`NotFoundError`), the no-environment-no-file message
when no file can be read (`ConfigReadError`), and the missing-fields message
when the section binds but validation fails; and every `MissingCredentials`
it raises is one of these three. -/
theorem readConfig_missing_credentials_cases :
    (∀ account, readConfig ConfigFile.unreadable account =
        Except.error (PyExc.missingCredentials noFileMsg)) ∧
    (∀ account sections, lookupSection sections account = none →
        readConfig (ConfigFile.readable sections) account =
          Except.error (PyExc.missingCredentials (accountMsg account))) ∧
    (∀ account, ∃ pre post, accountMsg account = pre ++ account ++ post) ∧
    (∀ account sections d c, lookupSection sections account = some d →
        mkConfig d = some c → checkConfig c ≠ [] →
        readConfig (ConfigFile.readable sections) account =
          Except.error (PyExc.missingCredentials (missingMsg (checkConfig c)))) ∧
    (∀ file account msg,
        readConfig file account = Except.error (PyExc.missingCredentials msg) →
        (file = ConfigFile.unreadable ∧ msg = noFileMsg) ∨
        (∃ sections, file = ConfigFile.readable sections ∧
          lookupSection sections account = none ∧ msg = accountMsg account) ∨
        (∃ sections d c, file = ConfigFile.readable sections ∧
          lookupSection sections account = some d ∧ mkConfig d = some c ∧
          checkConfig c ≠ [] ∧ msg = missingMsg (checkConfig c))) := by
  refine ⟨fun account => rfl, ?_, fun account => ⟨"The account ",
    " was not setup in your configuration file.", rfl⟩, ?_, ?_⟩
  · intro account sections hls
    simp [readConfig, hls]
  · intro account sections d c hls hmk hne
    have hlen : ((checkConfig c).length != 0) = true := by
      simpa [bne_iff_ne, List.length_eq_zero] using hne
    simp [readConfig, hls, hmk, hlen]
  · intro file account msg h
    cases file with
    | unreadable =>
      left
      refine ⟨rfl, ?_⟩
      have h2 := h
      simp [readConfig] at h2
      exact h2.symm
    | readable sections =>
      cases hls : lookupSection sections account with
      | none =>
        right; left
        refine ⟨sections, rfl, hls, ?_⟩
        simp [readConfig, hls] at h
        exact h.symm
      | some d =>
        cases hmk : mkConfig d with
        | none => simp [readConfig, hls, hmk] at h
        | some c =>
          cases hlen : ((checkConfig c).length != 0) with
          | false => simp [readConfig, hls, hmk, hlen] at h
          | true =>
            right; right
            refine ⟨sections, d, c, rfl, hls, hmk, ?_, ?_⟩
            · simpa [bne_iff_ne, List.length_eq_zero] using hlen
            · simp [readConfig, hls, hmk, hlen] at h
              exact h.symm

/-- Witness for C5: a readable file with no sections raises the
account-naming `MissingCredentials` for account "default". -/
theorem readConfig_missing_credentials_cases_witness :
    lookupSection [] "default" = none ∧
    readConfig (ConfigFile.readable []) "default" =
      Except.error (PyExc.missingCredentials (accountMsg "default")) :=
  ⟨rfl, readConfig_missing_credentials_cases.2.1 "default" [] rfl⟩

/-- **C6.** For every truthy explicit-credentials mapping that binds and
validates with no missing fields, construction resolves directly and invokes
no source at all: the trace is empty, no remote fetch happens, the cache is
untouched and the outcome is the bound record. -/
theorem explicit_credentials_skip_sources (d : PyDict) (env : Env)
    (fetch : String → FetchOutcome) (file : ConfigFile) (cache : Cache)
    (account : String) (c : Config)
    (ht : pyDictTruthy d = true) (hmk : mkConfig d = some c)
    (hv : checkConfig c = []) :
    (init account (some d) env fetch file cache).trace = [] ∧
    (init account (some d) env fetch file cache).fetchCalls = 0 ∧
    (init account (some d) env fetch file cache).outcome = Except.ok c ∧
    (init account (some d) env fetch file cache).cache = cache := by
  refine ⟨?_, ?_, ?_, ?_⟩ <;> simp [init, ht, hmk, hv]

/-- Witness for C6: a complete explicit mapping resolves with an empty source
trace and zero fetches. -/
theorem explicit_credentials_skip_sources_witness :
    pyDictTruthy dFullW = true ∧ mkConfig dFullW = some cFullW ∧
    checkConfig cFullW = [] ∧
    (init "default" (some dFullW) envFullW fetchErrW
      ConfigFile.unreadable []).trace = [] ∧
    (init "default" (some dFullW) envFullW fetchErrW
      ConfigFile.unreadable []).fetchCalls = 0 ∧
    (init "default" (some dFullW) envFullW fetchErrW
      ConfigFile.unreadable []).outcome = Except.ok cFullW ∧
    (init "default" (some dFullW) envFullW fetchErrW
      ConfigFile.unreadable []).cache = [] :=
  ⟨by decide, by decide, by decide,
   explicit_credentials_skip_sources dFullW envFullW fetchErrW
     ConfigFile.unreadable [] "default" cFullW (by decide) (by decide) (by decide)⟩

/-- **C7.** The remote-secret source is attempted only when
`SP_API_AWS_SECRET_ID` is set and non-empty: when that variable is falsy the
source returns `None` (a skip) with no fetch and nothing changed; on a
`ClientError` from the store it likewise returns `None` with the cache
untouched; and whenever it reports a skip (after a failed `from_env`) the
chain continues to the config source. -/
theorem fromSecrets_skips_not_fails :
    (∀ (env : Env) (fetch : String → FetchOutcome) (cache : Cache),
      isFalsy (envGet env "SP_API_AWS_SECRET_ID") = true →
      fromSecrets env fetch cache =
        { cache := cache, credentials := none, ret := none, fetchCalls := 0 }) ∧
    (∀ (env : Env) (fetch : String → FetchOutcome) (cache : Cache) (sid : String),
      envGet env "SP_API_AWS_SECRET_ID" = some sid → (sid == "") = false →
      fetch sid = FetchOutcome.clientError →
      fromSecrets env fetch cache =
        { cache := cache, credentials := none, ret := none, fetchCalls := 1 }) ∧
    (∀ (cache : Cache) (env : Env) (fetch : String → FetchOutcome)
      (file : ConfigFile) (account : String),
      (fromEnv cache env account).ret = false →
      (fromSecrets env fetch cache).ret = none →
      (loadCredentials cache env fetch file account).trace =
        [Source.env, Source.secrets, Source.config]) := by
  refine ⟨?_, ?_, ?_⟩
  · intro env fetch cache h
    cases hg : envGet env "SP_API_AWS_SECRET_ID" with
    | none => simp [fromSecrets, hg]
    | some s =>
      rw [hg] at h
      simp only [isFalsy] at h
      simp [fromSecrets, hg, h]
  · intro env fetch cache sid hsid hne hfetch
    simp [fromSecrets, hsid, hne, hfetch]
  · intro cache env fetch file account he hs
    have hs' : ((fromSecrets env fetch cache).ret == some true) = false := by
      simp [hs]
    cases hr : readConfig file account <;>
      simp [loadCredentials, he, hs', hr]

/-- Witness for C7: with no environment variables at all, the remote-secret
source skips without fetching or touching anything. -/
theorem fromSecrets_skips_not_fails_witness :
    isFalsy (envGet [] "SP_API_AWS_SECRET_ID") = true ∧
    fromSecrets [] fetchErrW [] =
      { cache := [], credentials := none, ret := none, fetchCalls := 0 } :=
  ⟨rfl, fromSecrets_skips_not_fails.1 [] fetchErrW [] rfl⟩

/-- **C8.** `_get_env` prefers the account-scoped variable
`{KEY}_{account}` whenever it is set (even to the empty string) and falls back
to the unscoped `KEY` only when the scoped one is absent; in particular, with
both `LWA_APP_ID` and `LWA_APP_ID_{account}` set and no cached payload,
`from_env` puts the scoped value into `lwa_app_id`. -/
theorem scoped_env_overrides_unscoped :
    (∀ (env : Env) (key account : String) (v : String),
      envGet env (key ++ "_" ++ account) = some v →
      getEnvScoped env key account = some v) ∧
    (∀ (env : Env) (key account : String),
      envGet env (key ++ "_" ++ account) = none →
      getEnvScoped env key account = envGet env key) ∧
    (∀ (env : Env) (cache : Cache) (account : String) (v : String),
      cacheGet cache "account_data" = none →
      envGet env ("LWA_APP_ID_" ++ account) = some v →
      (fromEnv cache env account).credentials.lwa_app_id = some v) := by
  refine ⟨?_, ?_, ?_⟩
  · intro env key account v h
    simp [getEnvScoped, h]
  · intro env key account h
    simp [getEnvScoped, h]
  · intro env cache account v hc hv
    simp [fromEnv, hc, getEnvScoped, hv]

/-- Witness for C8: with `LWA_APP_ID = "base"` and
`LWA_APP_ID_myaccount = "scoped"`, resolving account "myaccount" picks
"scoped". -/
theorem scoped_env_overrides_unscoped_witness :
    cacheGet [] "account_data" = none ∧
    envGet envScopedW ("LWA_APP_ID_" ++ "myaccount") = some "scoped" ∧
    (fromEnv [] envScopedW "myaccount").credentials.lwa_app_id = some "scoped" :=
  ⟨rfl, by decide,
   scoped_env_overrides_unscoped.2.2 envScopedW [] "myaccount" "scoped" rfl
     (by decide)⟩

/-- **C9.** The process-wide cache is used only through the single fixed key
`"account_data"`, independently of the account: the remote-secret source
changes no other key, the environment-variable source is determined by the
cache's value at that key alone, and a payload cached under it is returned by
`from_env` for any account and any environment whatsoever. -/
theorem cache_single_fixed_key :
    (∀ (env : Env) (fetch : String → FetchOutcome) (cache : Cache) (k : String),
      k ≠ "account_data" →
      cacheGet (fromSecrets env fetch cache).cache k = cacheGet cache k) ∧
    (∀ (env : Env) (account : String) (c1 c2 : Cache),
      cacheGet c1 "account_data" = cacheGet c2 "account_data" →
      fromEnv c1 env account = fromEnv c2 env account) ∧
    (∀ (env1 env2 : Env) (cache : Cache) (a b : String) (ad : Config),
      cacheGet cache "account_data" = some ad →
      (fromEnv cache env1 a).credentials = (fromEnv cache env2 b).credentials) := by
  refine ⟨?_, ?_, ?_⟩
  · intro env fetch cache k hk
    cases hg : envGet env "SP_API_AWS_SECRET_ID" with
    | none => simp [fromSecrets, hg]
    | some s =>
      cases hse : s == "" with
      | true => simp [fromSecrets, hg, hse]
      | false =>
        cases hf : fetch s with
        | clientError => simp [fromSecrets, hg, hse, hf]
        | ok secret =>
          simp [fromSecrets, hg, hse, hf, cacheGet_cachePut_ne _ _ _ _ hk]
  · intro env account c1 c2 h
    unfold fromEnv
    rw [h]
  · intro env1 env2 cache a b ad h
    simp [fromEnv, h]

/-- Witness for C9: a successful remote fetch leaves every key other than
`"account_data"` unchanged. -/
theorem cache_single_fixed_key_witness :
    ("other_key" : String) ≠ "account_data" ∧
    cacheGet (fromSecrets envSidW fetchOkW []).cache "other_key" =
      cacheGet [] "other_key" :=
  ⟨by decide, cache_single_fixed_key.1 envSidW fetchOkW [] "other_key" (by decide)⟩

/-- **C10.** When the fetch and decode succeed but the payload is incomplete,
`from_secrets` has already written the decoded payload to the cache before
validation: it returns `False`, the payload sits under `"account_data"`, and
every later `from_env` returns that incomplete payload (and fails) instead of
reading actual environment variables. -/
theorem incomplete_secret_payload_poisons_cache (env : Env)
    (fetch : String → FetchOutcome) (cache : Cache) (sid : String)
    (secret : RemoteSecret)
    (hsid : envGet env "SP_API_AWS_SECRET_ID" = some sid)
    (hne : (sid == "") = false) (hfetch : fetch sid = FetchOutcome.ok secret)
    (hchk : checkConfig (secretConfig secret) ≠ []) :
    (fromSecrets env fetch cache).ret = some false ∧
    cacheGet (fromSecrets env fetch cache).cache "account_data" =
      some (secretConfig secret) ∧
    (∀ (env2 : Env) (account : String),
      (fromEnv (fromSecrets env fetch cache).cache env2 account).credentials =
        secretConfig secret ∧
      (fromEnv (fromSecrets env fetch cache).cache env2 account).ret = false) := by
  have hlen : ((checkConfig (secretConfig secret)).length == 0) = false := by
    simpa [List.length_eq_zero] using hchk
  have hs : fromSecrets env fetch cache =
      { cache := cachePut cache "account_data" (secretConfig secret),
        credentials := some (secretConfig secret), ret := some false,
        fetchCalls := 1 } := by
    simp [fromSecrets, hsid, hne, hfetch, hlen]
  refine ⟨by simp [hs], by simp [hs, cacheGet_cachePut], ?_⟩
  intro env2 account
  rw [hs]
  constructor <;> simp [fromEnv, cacheGet_cachePut, hlen]

/-- Witness for C10: an incomplete payload (only `lwa_app_id`) is cached and
then served by `from_env` even under an environment that has all required
variables set. -/
theorem incomplete_secret_payload_poisons_cache_witness :
    checkConfig (secretConfig secretPartialW) ≠ [] ∧
    (fromSecrets envSidW fetchPartialW []).ret = some false ∧
    cacheGet (fromSecrets envSidW fetchPartialW []).cache "account_data" =
      some (secretConfig secretPartialW) ∧
    (fromEnv (fromSecrets envSidW fetchPartialW []).cache envFullW
      "default").credentials = secretConfig secretPartialW ∧
    (fromEnv (fromSecrets envSidW fetchPartialW []).cache envFullW
      "default").ret = false := by
  have h := incomplete_secret_payload_poisons_cache envSidW fetchPartialW []
    "sid" secretPartialW (by decide) (by decide) rfl (by decide)
  exact ⟨by decide, h.1, h.2.1, (h.2.2 envFullW "default").1,
    (h.2.2 envFullW "default").2⟩

end SpApi
